import Mathlib

/-!
Verification development for the `gmail-webhook` repository.

The repository forwards freight-load notification emails to Telegram.  Its
logic lives in `gmail_webhook.py` and `gmail_watch.py` (two near-identical
Flask applications).  This file is a shallow embedding of the functions the
specification talks about:

* `safe_decode_base64` — tolerant url-safe base64 decoding,
* `extract_text_from_payload` — recursive multi-part body extraction,
* `extract_pickup_info` / `extract_delivery_info` — regex based field
  extraction,
* `build_formatted_message` — the Load-record renderer,
* `send_telegram_message` — the retrying Telegram sender of `gmail_watch.py`
  (modelled over an oracle of per-attempt transport outcomes),
* the `gmail-notify` processing loop, and
* a spec-modelled `matchNearby` geo filter (this component has no code in
  the repository).

The Python code uses `re.search` with a handful of fixed patterns.  Those
patterns are embedded through a small backtracking regular-expression
engine (`RE` / `mtch` / `research`) whose candidate ordering mirrors the
leftmost-then-pattern-priority semantics of Python `re`: alternatives are
tried left to right and greedy repetition prefers longer matches.
-/

namespace GmailHook

/-! ## Python character helpers -/

/-- The character set matched by Python `\s` (and stripped by `str.strip`)
for `str` patterns: ASCII whitespace, the unit separators, NEL, NBSP and
the Unicode space characters. -/
def isPySpace (c : Char) : Bool :=
  c.toNat == 32 || c.toNat == 9 || c.toNat == 10 || c.toNat == 11 ||
  c.toNat == 12 || c.toNat == 13 || c.toNat == 28 || c.toNat == 29 ||
  c.toNat == 30 || c.toNat == 31 || c.toNat == 133 || c.toNat == 160 ||
  c.toNat == 0x1680 || (0x2000 ≤ c.toNat && c.toNat ≤ 0x200a) ||
  c.toNat == 0x2028 || c.toNat == 0x2029 || c.toNat == 0x202f ||
  c.toNat == 0x205f || c.toNat == 0x3000

/-- Python `str.strip()`: remove leading and trailing whitespace. -/
def pyStrip (s : String) : String :=
  String.mk (((s.toList.dropWhile isPySpace).reverse.dropWhile isPySpace).reverse)

/-- The class `[\r\n]` used by the pickup/delivery patterns. -/
def isCRLF (c : Char) : Bool := c == '\r' || c == '\n'

/-! ## A small backtracking regex engine

`mtch r s` returns the list of `(consumed, captures)` pairs for all ways
`r` can match a prefix of `s`, ordered by Python backtracking priority
(alternatives left first, greedy repetition longest first).  Captures are
stored as `(group index, captured characters)`. -/

abbrev Caps := List (Nat × List Char)

inductive RE : Type where
  | eps : RE
  | cls : (Char → Bool) → RE
  | seq : RE → RE → RE
  | alt : RE → RE → RE
  | star : RE → RE
  | group : Nat → RE → RE

/-- Greedy-star helper: unfold the star body at most `fuel` times, each
iteration being required to consume at least one character (every starred
sub-pattern of the embedded Python patterns consumes on success).  Called
with `fuel = s.length`, which makes the bound vacuous. -/
def mtchStarAux (f : List Char → List (Nat × Caps)) : Nat → List Char → List (Nat × Caps)
  | 0, _ => [(0, [])]
  | fuel + 1, s =>
      ((f s).flatMap (fun nc =>
        if 0 < nc.1 then
          (mtchStarAux f fuel (s.drop nc.1)).map (fun mc => (nc.1 + mc.1, nc.2 ++ mc.2))
        else [])) ++ [(0, [])]

def mtch : RE → List Char → List (Nat × Caps)
  | .eps, _ => [(0, [])]
  | .cls _, [] => []
  | .cls p, c :: _ => if p c then [(1, [])] else []
  | .seq a b, s =>
      (mtch a s).flatMap (fun nc =>
        (mtch b (s.drop nc.1)).map (fun mc => (nc.1 + mc.1, nc.2 ++ mc.2)))
  | .alt a b, s => mtch a s ++ mtch b s
  | .star r, s => mtchStarAux (fun t => mtch r t) s.length s
  | .group i r, s => (mtch r s).map (fun nc => (nc.1, (i, s.take nc.1) :: nc.2))

/-- `re.search`: try to match at each start position from the left; the
first position with a match wins and the engine's first candidate there is
the reported match. -/
def research (r : RE) : List Char → Option (Nat × Caps)
  | [] =>
    match mtch r [] with
    | nc :: _ => some nc
    | [] => none
  | c :: rest =>
    match mtch r (c :: rest) with
    | nc :: _ => some nc
    | [] => research r rest

/-- Captured text of group `i` (empty string when the group is absent). -/
def capGet (caps : Caps) (i : Nat) : String :=
  match caps.find? (fun p => p.1 == i) with
  | some p => String.mk p.2
  | none => ""

/-! Pattern building blocks. -/

def reChar (c : Char) : RE := .cls (fun x => x == c)

/-- A case-insensitive literal character (Python `re.IGNORECASE`). -/
def reCharCI (c : Char) : RE := .cls (fun x => x.toLower == c.toLower)

def reStr (s : String) : RE := s.toList.foldr (fun c r => .seq (reChar c) r) .eps

def reStrCI (s : String) : RE := s.toList.foldr (fun c r => .seq (reCharCI c) r) .eps

def reCat (l : List RE) : RE := l.foldr .seq .eps

/-- `r+` (greedy). -/
def rePlus (r : RE) : RE := .seq r (.star r)

/-- `r?` (greedy). -/
def reQmark (r : RE) : RE := .alt r .eps

def reDigit : RE := .cls Char.isDigit

/-- `\d{1,2}` (greedy bounded repetition as prioritized alternation). -/
def reD12 : RE := .alt (.seq reDigit reDigit) reDigit

/-- `\d{1,3}`. -/
def reD13 : RE :=
  .alt (reCat [reDigit, reDigit, reDigit]) (.alt (.seq reDigit reDigit) reDigit)

/-- `\d{2,4}`. -/
def reD24 : RE :=
  .alt (reCat [reDigit, reDigit, reDigit, reDigit])
    (.alt (reCat [reDigit, reDigit, reDigit]) (.seq reDigit reDigit))

/-! ## `safe_decode_base64`

`gmail_webhook.py` lines 50-65 and `gmail_watch.py` lines 83-98:

* empty input returns `None`;
* the input is right-padded with `'='` to a multiple of 4;
* `base64.urlsafe_b64decode` is applied (ASCII-encode the string, translate
  `-`/`_` to `+`/`/`, then CPython `binascii.a2b_base64` in non-strict
  mode, which silently skips characters outside the alphabet, stops at a
  complete padding and rejects a leftover partial quantum);
* the resulting bytes are decoded as UTF-8 with `errors='ignore'`;
* any failure is caught and turned into `None`. -/

/-- Value of a standard-alphabet base64 character. -/
def b64Val (c : Char) : Option Nat :=
  if 'A' ≤ c && c ≤ 'Z' then some (c.toNat - 65)
  else if 'a' ≤ c && c ≤ 'z' then some (c.toNat - 97 + 26)
  else if '0' ≤ c && c ≤ '9' then some (c.toNat - 48 + 52)
  else if c == '+' then some 62
  else if c == '/' then some 63
  else none

/-- CPython `binascii.a2b_base64` (non-strict mode).  State: position in the
current 4-character quantum, pending bits, count of padding characters seen
since the last data character, output bytes (reversed). -/
def a2bBase64Go : List Char → Nat → Nat → Nat → List Nat → Option (List Nat)
  | [], quadPos, _, _, out =>
      if quadPos == 0 then some out.reverse else none
  | c :: rest, quadPos, leftchar, pads, out =>
      if c == '=' then
        if 2 ≤ quadPos && 4 ≤ quadPos + (pads + 1) then some out.reverse
        else a2bBase64Go rest quadPos leftchar (pads + 1) out
      else
        match b64Val c with
        | none => a2bBase64Go rest quadPos leftchar pads out
        | some v =>
          match quadPos with
          | 0 => a2bBase64Go rest 1 v 0 out
          | 1 => a2bBase64Go rest 2 (v % 16) 0 ((leftchar * 4 + v / 16) :: out)
          | 2 => a2bBase64Go rest 3 (v % 4) 0 ((leftchar * 16 + v / 4) :: out)
          | _ => a2bBase64Go rest 0 0 0 ((leftchar * 64 + v) :: out)

def a2bBase64 (s : List Char) : Option (List Nat) := a2bBase64Go s 0 0 0 []

/-- `base64.urlsafe_b64decode` first translates the url-safe alphabet to
the standard one. -/
def urlsafeTranslate (s : List Char) : List Char :=
  s.map (fun c => if c == '-' then '+' else if c == '_' then '/' else c)

/-- Is `b` a UTF-8 continuation byte? -/
def isUtf8Cont (b : Nat) : Bool := 128 ≤ b && b ≤ 191

/-- Admissible first continuation byte after lead byte `b` (excludes
overlong encodings, surrogates and values above U+10FFFF, as CPython's
decoder does). -/
def utf8Cont1Ok (b b1 : Nat) : Bool :=
  if b == 224 then 160 ≤ b1 && b1 ≤ 191
  else if b == 237 then 128 ≤ b1 && b1 ≤ 159
  else if b == 240 then 144 ≤ b1 && b1 ≤ 191
  else if b == 244 then 128 ≤ b1 && b1 ≤ 143
  else isUtf8Cont b1

/-- Worker for `utf8DecodeIgnore`.  The recursion consumes at least one
byte per step, so the structural `fuel` bound (instantiated with the byte
count) never cuts the computation short; it only makes the definition
kernel-reducible. -/
def utf8Go : Nat → List Nat → List Char
  | 0, _ => []
  | _, [] => []
  | fuel + 1, b :: rest =>
    if b < 128 then Char.ofNat b :: utf8Go fuel rest
    else if 194 ≤ b && b ≤ 223 then
      match rest with
      | [] => []
      | b1 :: rest2 =>
        if isUtf8Cont b1 then
          Char.ofNat ((b - 192) * 64 + (b1 - 128)) :: utf8Go fuel rest2
        else utf8Go fuel (b1 :: rest2)
    else if 224 ≤ b && b ≤ 239 then
      match rest with
      | [] => []
      | b1 :: rest2 =>
        if utf8Cont1Ok b b1 then
          match rest2 with
          | [] => []
          | b2 :: rest3 =>
            if isUtf8Cont b2 then
              Char.ofNat ((b - 224) * 4096 + (b1 - 128) * 64 + (b2 - 128)) ::
                utf8Go fuel rest3
            else utf8Go fuel (b2 :: rest3)
        else utf8Go fuel (b1 :: rest2)
    else if 240 ≤ b && b ≤ 244 then
      match rest with
      | [] => []
      | b1 :: rest2 =>
        if utf8Cont1Ok b b1 then
          match rest2 with
          | [] => []
          | b2 :: rest3 =>
            if isUtf8Cont b2 then
              match rest3 with
              | [] => []
              | b3 :: rest4 =>
                if isUtf8Cont b3 then
                  Char.ofNat ((b - 240) * 262144 + (b1 - 128) * 4096 +
                    (b2 - 128) * 64 + (b3 - 128)) :: utf8Go fuel rest4
                else utf8Go fuel (b3 :: rest4)
            else utf8Go fuel (b2 :: rest3)
        else utf8Go fuel (b1 :: rest2)
    else utf8Go fuel rest

/-- `bytes.decode('utf-8', errors='ignore')`: decode valid sequences and
silently drop the bytes of invalid ones (following CPython's error ranges:
a rejected continuation byte is reprocessed as a fresh start byte). -/
def utf8DecodeIgnore (l : List Nat) : List Char := utf8Go l.length l

/-- The `'=' * (4 - missing_padding)` right-padding step. -/
def b64Pad (data : String) : String :=
  if data.length % 4 != 0 then
    data ++ String.mk (List.replicate (4 - data.length % 4) '=')
  else data

/-- `base64.urlsafe_b64decode` on a `str` argument: ASCII-encode (fails on
any character above U+007F), translate the url-safe alphabet, then
`a2b_base64`.  `none` is the raised exception. -/
def b64RawDecode (s : String) : Option (List Nat) :=
  if s.toList.any (fun c => 128 ≤ c.toNat) then none
  else a2bBase64 (urlsafeTranslate s.toList)

/-- `safe_decode_base64` of both source files. -/
def safe_decode_base64 (data : String) : Option String :=
  if data == "" then none
  else
    match b64RawDecode (b64Pad data) with
    | some bytes => some (String.mk (utf8DecodeIgnore bytes))
    | none => none

/-! ## The embedded `re` patterns

Each definition transliterates one pattern string of the source.  All the
`extract_pickup_info` / `extract_delivery_info` patterns carry `(?i)` or
are searched with `re.IGNORECASE`; the second miles pattern is the one
case-sensitive search of the code. -/

/-- `[:\- ]+` -/
def reColonDash : RE := rePlus (.cls (fun c => c == ':' || c == '-' || c == ' '))

/-- `([^\n]+)` as group `i`. -/
def reNotNLGroup (i : Nat) : RE := .group i (rePlus (.cls (fun c => c != '\n')))

/-- `[^\r\n]+` -/
def reLine : RE := rePlus (.cls (fun c => !isCRLF c))

/-- `\s*[\r\n]+` followed by `n` groups of `([^\r\n]+)` separated by
`[\r\n]+`: the tail shared by the pickup/delivery block patterns. -/
def reLinesTail : Nat → RE
  | 0 => .eps
  | 1 => reCat [.star (.cls isPySpace), rePlus (.cls isCRLF), .group 1 reLine]
  | 2 => reCat [.star (.cls isPySpace), rePlus (.cls isCRLF), .group 1 reLine,
      rePlus (.cls isCRLF), .group 2 reLine]
  | _ => reCat [.star (.cls isPySpace), rePlus (.cls isCRLF), .group 1 reLine,
      rePlus (.cls isCRLF), .group 2 reLine, rePlus (.cls isCRLF), .group 3 reLine]

/-- `(?i)Pick[- ]?Up` -/
def rePickUpMarker : RE :=
  reCat [reStrCI "Pick", reQmark (.cls (fun c => c == '-' || c == ' ')), reStrCI "Up"]

/-- `(?i)Pick[- ]?Up\s*[\r\n]+([^\r\n]+)[\r\n]+([^\r\n]+)` -/
def pickup_pattern : RE := .seq rePickUpMarker (reLinesTail 2)

/-- The ordered fallback patterns of `extract_pickup_info`. -/
def pickup_fallbacks : List RE :=
  [ .seq rePickUpMarker (reLinesTail 1),
    reCat [reStrCI "Pickup Location", reColonDash, .star (.cls isPySpace), reNotNLGroup 1],
    reCat [rePickUpMarker, reColonDash, .star (.cls isPySpace), reNotNLGroup 1],
    reCat [reStrCI "Pickup", reColonDash, .star (.cls isPySpace), reNotNLGroup 1],
    reCat [reStrCI "P/U", reColonDash, .star (.cls isPySpace), reNotNLGroup 1] ]

/-- `(?i)Delivery\s*[\r\n]+([^\r\n]+)[\r\n]+([^\r\n]+)` -/
def delivery_pattern : RE := .seq (reStrCI "Delivery") (reLinesTail 2)

/-- `(?i)Delivery\s*[\r\n]+([^\r\n]+)[\r\n]+([^\r\n]+)[\r\n]+([^\r\n]+)` -/
def delivery_extended_pattern : RE := .seq (reStrCI "Delivery") (reLinesTail 3)

/-- `\d{1,2}/\d{1,2}/\d{2,4}|\d{1,2}:\d{2}|ASAP|Direct` (searched with
`re.IGNORECASE` over the candidate date line). -/
def date_shape_pattern : RE :=
  .alt (reCat [reD12, reChar '/', reD12, reChar '/', reD24])
    (.alt (reCat [reD12, reChar ':', reDigit, reDigit])
      (.alt (reStrCI "ASAP") (reStrCI "Direct")))

/-- The ordered fallback patterns of `extract_delivery_info`. -/
def delivery_fallbacks : List RE :=
  [ .seq (reStrCI "Delivery") (reLinesTail 1),
    reCat [reStrCI "Deliver to", reColonDash, .star (.cls isPySpace), reNotNLGroup 1],
    reCat [reStrCI "Delivery Location", reColonDash, .star (.cls isPySpace), reNotNLGroup 1] ]

/-- `(\d+ STOPS?,\s*[0-9,]+ MILES)` (searched with `re.IGNORECASE` by
`find`). -/
def stops_miles_pattern : RE :=
  .group 1 (reCat [rePlus reDigit, reChar ' ', reStrCI "STOP", reQmark (reCharCI 'S'),
    reChar ',', .star (.cls isPySpace),
    rePlus (.cls (fun c => c.isDigit || c == ',')), reChar ' ', reStrCI "MILES"])

/-- `(\d{1,3}(?:,\d{3})*|\d+)\s*MILES` — searched case-SENSITIVELY over the
`stops_miles` string. -/
def miles_pattern : RE :=
  reCat [.group 1 (.alt
      (.seq reD13 (.star (reCat [reChar ',', reDigit, reDigit, reDigit])))
      (rePlus reDigit)),
    .star (.cls isPySpace), reStr "MILES"]

/-- `Label\s*(.*)` for the simple field patterns such as `Pieces:\s*(.*)`
(searched with `re.IGNORECASE`; `.` does not match a newline). -/
def field_pattern (label : String) : RE :=
  reCat [reStrCI label, .star (.cls isPySpace), .group 1 (.star (.cls (fun c => c != '\n')))]

/-! ## The extraction functions -/

/-- The local helper `find` of `build_formatted_message`:
`match.group(1).strip() if match and match.group(1) else default`. -/
def findPat (pat : RE) (body : String) (dflt : String) : String :=
  match research pat body.toList with
  | some (_, caps) =>
    let g := capGet caps 1
    if g == "" then dflt else pyStrip g
  | none => dflt

/-- First fallback pattern that matches, with its stripped group 1. -/
def firstFallback (pats : List RE) (body : String) : Option String :=
  match pats with
  | [] => none
  | p :: rest =>
    match research p body.toList with
    | some (_, caps) => some (pyStrip (capGet caps 1))
    | none => firstFallback rest body

/-- `extract_pickup_info` (`gmail_webhook.py` 67-99, `gmail_watch.py`
100-132): the two lines after the `Pick-Up` marker are returned as
`(address, date)` unconditionally; otherwise the fallback patterns give
`(address, None)`. -/
def extract_pickup_info (body : String) : Option String × Option String :=
  if body == "" then (none, none)
  else
    match research pickup_pattern body.toList with
    | some (_, caps) => (some (pyStrip (capGet caps 1)), some (pyStrip (capGet caps 2)))
    | none =>
      match firstFallback pickup_fallbacks body with
      | some a => (some a, none)
      | none => (none, none)

/-- `extract_delivery_info` (`gmail_webhook.py` 101-144, `gmail_watch.py`
134-177): as pickup, except that when the second line does not look like a
date/time/keyword the extended three-line pattern is consulted and the
second line is appended to the address. -/
def extract_delivery_info (body : String) : Option String × Option String :=
  if body == "" then (none, none)
  else
    match research delivery_pattern body.toList with
    | some (_, caps) =>
      let addr := pyStrip (capGet caps 1)
      let info := pyStrip (capGet caps 2)
      if (research date_shape_pattern info.toList).isSome then (some addr, some info)
      else
        match research delivery_extended_pattern body.toList with
        | some (_, ecaps) =>
          (some (addr ++ " " ++ info), some (pyStrip (capGet ecaps 3)))
        | none => (some addr, some info)
    | none =>
      match firstFallback delivery_fallbacks body with
      | some a => (some a, none)
      | none => (none, none)

/-- Python `x or default` for an optional string (`None` and `""` both fall
back to the default). -/
def pyOrS (o : Option String) (dflt : String) : String :=
  match o with
  | some s => if s == "" then dflt else s
  | none => dflt

/-- The `limit_length` helper (200-character cap with ellipsis). -/
def limit_length (text : String) : String :=
  if text.length > 200 then text.take 200 ++ "..." else text

/-- The `stops_miles` intermediate of `build_formatted_message`. -/
def stops_miles_of (body : String) : String := findPat stops_miles_pattern body ""

/-- The `estimated_miles` value of `build_formatted_message`: a second,
case-sensitive search over the `stops_miles` string; group 1 if it
matches, otherwise `"N/A"`. -/
def estimated_miles_of (body : String) : String :=
  match research miles_pattern (stops_miles_of body).toList with
  | some (_, caps) => capGet caps 1
  | none => "N/A"

/-- The f-string template of `build_formatted_message`, as a function of
the already-extracted field values (argument order follows the template). -/
def renderLoadMessage (pa pd da dd miles truck amount pieces weight dims
    stackable bname bcomp bphone notes : String) : String :=
  "📦 **New Load Alert!**\n\n" ++
  "📍 **Pick-up:** " ++ limit_length pa ++ "\n" ++
  "📅 **Pick-up date (EST):** " ++ limit_length pd ++ "\n\n" ++
  "🏁 **Deliver to:** " ++ limit_length da ++ "\n" ++
  "📅 **Deliver date (EST):** " ++ limit_length dd ++ "\n\n" ++
  "🛣️ **Estimated Miles:** " ++ miles ++ "\n" ++
  "🚚 **Suggested Truck Size:** " ++ limit_length truck ++ "\n" ++
  "💰 **Posted Amount:** " ++ limit_length amount ++ "\n\n" ++
  "📦 **Pieces:** " ++ limit_length pieces ++ "\n" ++
  "⚖️ **Weight:** " ++ limit_length weight ++ "\n" ++
  "📏 **Dims:** " ++ limit_length dims ++ "\n" ++
  "📚 **Stackable:** " ++ stackable ++ "\n\n" ++
  "👨‍💼 **Broker:** " ++ limit_length bname ++ "\n" ++
  "🏢 **Company:** " ++ limit_length bcomp ++ "\n" ++
  "📞 **Phone:** " ++ limit_length bphone ++ "\n\n" ++
  "📝 **Notes:** " ++ limit_length notes

/-- `build_formatted_message` (`gmail_webhook.py` 222-291, `gmail_watch.py`
276-345).  The Python body is wrapped in a `try` whose handler returns an
error string; nothing in the embedded body can raise, so that handler is
dead code here. -/
def build_formatted_message (body : String) : String :=
  if body == "" then "❌ **Error: Empty email body**"
  else
    let pk := extract_pickup_info body
    let dv := extract_delivery_info body
    renderLoadMessage
      (pyOrS pk.1 "Unknown Pickup") (pyOrS pk.2 "ASAP")
      (pyOrS dv.1 "Unknown Delivery") (pyOrS dv.2 "N/A")
      (estimated_miles_of body)
      (findPat (field_pattern "Vehicle required:") body "N/A")
      (findPat (field_pattern "Posted Amount:") body "N/A")
      (findPat (field_pattern "Pieces:") body "N/A")
      (findPat (field_pattern "Weight:") body "N/A")
      (findPat (field_pattern "Dimensions:") body "N/A")
      (findPat (field_pattern "Stackable:") body "N/A")
      (findPat (field_pattern "Broker Name:") body "N/A")
      (findPat (field_pattern "Broker Company:") body "N/A")
      (findPat (field_pattern "Broker Phone:") body "N/A")
      (findPat (field_pattern "Notes:") body "N/A")

/-! ## The message-part tree and `extract_text_from_payload`

A Gmail payload dictionary is modelled by its fields that the code reads:
`mimeType`, `body.data` (absent or a string; Python truthiness makes the
empty string behave like absence) and the `parts` key (`hasPartsKey`
records presence of the key, `parts` its list). -/

inductive MessagePart : Type where
  | mk (mimeType : String) (data : Option String) (hasPartsKey : Bool)
      (parts : List MessagePart)

/-- `part.get('body', {}).get('data')` truthiness. -/
def dataTruthy (d : Option String) : Bool :=
  match d with
  | some s => s != ""
  | none => false

/-- Model of `BeautifulSoup(decoded, 'html.parser').get_text()` for the
markup fragments this development evaluates it on: characters between `<`
and `>` are dropped, everything else is kept verbatim (on tag-free input
`get_text` is the identity, which is all the concrete theorems below
use). -/
def soupGetText (s : String) : String :=
  String.mk (go s.toList false)
where
  go : List Char → Bool → List Char
    | [], _ => []
    | c :: rest, inTag =>
      if c == '<' then go rest true
      else if c == '>' then go rest false
      else if inTag then go rest true
      else c :: go rest false

/-- The leaf handling of the non-`parts` branch of
`extract_text_from_payload`. -/
def leafExtract (mt : String) (d : Option String) : String :=
  if mt == "text/plain" && dataTruthy d then
    match safe_decode_base64 (d.getD "") with
    | some s => s
    | none => ""
  else if mt == "text/html" && dataTruthy d then
    match safe_decode_base64 (d.getD "") with
    | some s => if s != "" then soupGetText s else ""
    | none => ""
  else ""

/-- The `for part in payload['parts']` loop of `extract_text_from_payload`
(both files): first plain-text part with a truthy decoded body wins and
stops the loop; an HTML part with a truthy decoded body also stops the
loop, returning its stripped text; a part carrying a `parts` key is
recursed into and stops the loop when the recursion returns non-empty
text. -/
def extractParts : List MessagePart → String
  | [] => ""
  | (.mk mt d hasParts parts) :: rest =>
    if mt == "text/plain" && dataTruthy d then
      match safe_decode_base64 (d.getD "") with
      | some s => if s != "" then s else extractParts rest
      | none => extractParts rest
    else if mt == "text/html" && dataTruthy d then
      match safe_decode_base64 (d.getD "") with
      | some s => if s != "" then soupGetText s else extractParts rest
      | none => extractParts rest
    else if hasParts then
      let b := extractParts parts
      if b != "" then b else extractParts rest
    else extractParts rest

/-- `extract_text_from_payload` (`gmail_webhook.py` 158-208,
`gmail_watch.py` 197-247). -/
def extract_text_from_payload : MessagePart → String
  | .mk _ _ true parts => extractParts parts
  | .mk mt d false _ => leafExtract mt d

/-! A specification-style companion: the list of text-bearing hits of a
tree in depth-first traversal order, used to compare `extract` with the
"first hit wins" reading of the spec. -/

inductive TextHit : Type where
  | plain (s : String)
  | html (s : String)
deriving DecidableEq

/-- What the extractor would return for a hit. -/
def renderHit : TextHit → String
  | .plain s => s
  | .html s => soupGetText s

/-- The hit contributed by one part of a `parts` list, or, recursively, the
hits of its sub-parts. -/
def hitsList : List MessagePart → List TextHit
  | [] => []
  | (.mk mt d hasParts parts) :: rest =>
    (if mt == "text/plain" && dataTruthy d then
      match safe_decode_base64 (d.getD "") with
      | some s => if s != "" then [TextHit.plain s] else []
      | none => []
    else if mt == "text/html" && dataTruthy d then
      match safe_decode_base64 (d.getD "") with
      | some s => if s != "" then [TextHit.html s] else []
      | none => []
    else if hasParts then hitsList parts
    else []) ++ hitsList rest

/-- Text hits of a whole tree. -/
def hitsOf : MessagePart → List TextHit
  | .mk _ _ true parts => hitsList parts
  | .mk mt d false _ =>
    if mt == "text/plain" && dataTruthy d then
      match safe_decode_base64 (d.getD "") with
      | some s => if s != "" then [TextHit.plain s] else []
      | none => []
    else if mt == "text/html" && dataTruthy d then
      match safe_decode_base64 (d.getD "") with
      | some s => if s != "" then [TextHit.html s] else []
      | none => []
    else []

/-! ## The Telegram senders -/

/-- The message-length cap applied before transmission (both files):
`message[:4000] + "\n\n... (truncated)"` when the message exceeds 4000
characters. -/
def telegram_payload_text (message : String) : String :=
  if message.length > 4000 then message.take 4000 ++ "\n\n... (truncated)"
  else message

/-- The texts posted by `gmail_webhook.send_telegram_message` (lines
293-326): nothing when the guard fails, otherwise exactly one POST with the
capped text. -/
def send_payloads_webhook (message token chatId : String) : List String :=
  if message == "" || token == "" || chatId == "" then []
  else [telegram_payload_text message]

/-- Outcome of one `session.post` attempt as observed by
`gmail_watch.send_telegram_message`: an HTTP status, a connection/TLS
error (`ssl.SSLError`, `socket.error`, `ConnectionError`), a
`requests.exceptions.Timeout`, or any other exception. -/
inductive TgOutcome : Type where
  | status (code : Nat)
  | connError
  | timeout
  | otherExc
deriving DecidableEq

/-- `response.status_code in [429, 500, 502, 503, 504]`. -/
def retryableCode (c : Nat) : Bool :=
  c == 429 || c == 500 || c == 502 || c == 503 || c == 504

/-- Is an attempt outcome one the retry loop continues after? -/
def retryableOutcome : TgOutcome → Bool
  | .status c => retryableCode c
  | .connError => true
  | .timeout => true
  | .otherExc => false

/-- The `for attempt in range(max_retries)` loop of
`gmail_watch.send_telegram_message` (lines 347-401), evaluated against an
oracle giving the outcome of each attempt.  Returns the boolean result and
the number of attempts that reached `session.post`. -/
def sendAttempts (oracle : Nat → TgOutcome) (maxRetries : Nat) : Nat → Nat → Bool × Nat
  | _, 0 => (false, maxRetries)
  | attempt, fuel + 1 =>
    match oracle attempt with
    | .status c =>
      if c == 200 then (true, attempt + 1)
      else if retryableCode c then
        if attempt < maxRetries - 1 then sendAttempts oracle maxRetries (attempt + 1) fuel
        else (false, attempt + 1)
      else (false, attempt + 1)
    | .connError =>
      if attempt == maxRetries - 1 then (false, attempt + 1)
      else sendAttempts oracle maxRetries (attempt + 1) fuel
    | .timeout =>
      if attempt == maxRetries - 1 then (false, attempt + 1)
      else sendAttempts oracle maxRetries (attempt + 1) fuel
    | .otherExc => (false, attempt + 1)

/-- `gmail_watch.send_telegram_message` with its default `max_retries = 3`:
guard on message/token/chat id, then the retry loop.  The second component
counts how many times the underlying POST operation was invoked.  The
function carries no state other than its arguments, which is the whole
content of the circuit-breaker discussion: nothing survives from one call
to the next. -/
def send_telegram_message_watch (message token chatId : String)
    (oracle : Nat → TgOutcome) : Bool × Nat :=
  if message == "" || token == "" || chatId == "" then (false, 0)
  else sendAttempts oracle 3 0 3

/-! ## The `gmail-notify` processing loop -/

/-- The message loop of the `/gmail-notify` handler (`gmail_webhook.py`
509-531, `gmail_watch.py` 658-680) applied to the extracted bodies of the
listed messages: returns the formatted messages that are sent.  A body is
processed only when it is truthy and longer than 100 characters, and the
`processed_count >= 1` check at the top of the loop stops after one
processed message. -/
def gmail_notify_sends (bodies : List String) : List String :=
  go bodies 0
where
  go : List String → Nat → List String
    | [], _ => []
    | b :: rest, cnt =>
      if 1 ≤ cnt then []
      else if b != "" && b.length > 100 then
        build_formatted_message b :: go rest (cnt + 1)
      else go rest cnt

/-! ## The geo dispatcher (spec-modelled) -/

/-- A recipient row of the registry. -/
structure Recipient : Type where
  id : String
  label : String
  lat : ℚ
  lon : ℚ
deriving DecidableEq

/-- Modelled from the spec: the repository has no Geo Dispatcher code (no
`matchNearby`, recipient registry or distance computation appears in any
source file), so this definition follows spec section 4.4 verbatim: keep
exactly the recipients whose great-circle distance to the origin is at
most `radiusMiles`, in registry order.  The great-circle distance function
itself is an external numeric collaborator and is passed as the `dist`
parameter. -/
def matchNearby (dist : ℚ × ℚ → ℚ × ℚ → ℚ) (origin : ℚ × ℚ)
    (recipients : List Recipient) (radiusMiles : ℚ) : List Recipient :=
  recipients.filter (fun r => decide (dist origin (r.lat, r.lon) ≤ radiusMiles))

/-! # Theorems -/

set_option maxRecDepth 16000

/-! ## Helper lemmas about the retry loop -/

theorem retryableCode_ne_200 {c : Nat} (h : retryableCode c = true) :
    (c == 200) = false := by
  simp only [retryableCode, Bool.or_eq_true, beq_iff_eq] at h
  simp only [beq_eq_false_iff_ne]
  omega

theorem sendAttempts_retry_step (oracle : Nat → TgOutcome) (i fuel : Nat)
    (h : retryableOutcome (oracle i) = true) (hi : i < 2) :
    sendAttempts oracle 3 i (fuel + 1) = sendAttempts oracle 3 (i + 1) fuel := by
  rcases ho : oracle i with c | _ | _ | _ <;> rw [ho] at h
  · simp only [retryableOutcome] at h
    simp [sendAttempts, ho, retryableCode_ne_200 h, h, hi]
  · have hne : (i == 2) = false := by
      simp only [beq_eq_false_iff_ne]; omega
    simp [sendAttempts, ho, hne]
  · have hne : (i == 2) = false := by
      simp only [beq_eq_false_iff_ne]; omega
    simp [sendAttempts, ho, hne]
  · exact absurd h (by simp [retryableOutcome])

theorem sendAttempts_retry_last (oracle : Nat → TgOutcome) (fuel : Nat)
    (h : retryableOutcome (oracle 2) = true) :
    sendAttempts oracle 3 2 (fuel + 1) = (false, 3) := by
  rcases ho : oracle 2 with c | _ | _ | _ <;> rw [ho] at h
  · simp only [retryableOutcome] at h
    simp [sendAttempts, ho, retryableCode_ne_200 h, h]
  · simp [sendAttempts, ho]
  · simp [sendAttempts, ho]
  · exact absurd h (by simp [retryableOutcome])

theorem sendAttempts_success (oracle : Nat → TgOutcome) (i fuel : Nat)
    (h : oracle i = .status 200) :
    sendAttempts oracle 3 i (fuel + 1) = (true, i + 1) := by
  simp [sendAttempts, h]

theorem sendAttempts_count (oracle : Nat → TgOutcome) :
    ∀ fuel attempt, attempt + fuel = 3 →
      1 ≤ (sendAttempts oracle 3 attempt fuel).2 ∧
        (sendAttempts oracle 3 attempt fuel).2 ≤ 3 := by
  intro fuel
  induction fuel with
  | zero =>
    intro attempt h
    simp [sendAttempts]
  | succ fuel ih =>
    intro attempt h
    rcases ho : oracle attempt with c | _ | _ | _ <;>
      simp only [sendAttempts, ho] <;>
      repeat' split
    all_goals first
      | exact ih (attempt + 1) (by omega)
      | omega

/-! ## C1 — circuit breaker -/

/-- C1 counterexample.  The spec claims that after 3 consecutive failures
the circuit opens and a call made before the cooldown elapses is rejected
without invoking the underlying operation.  `send_telegram_message_watch`
is a pure function of its arguments: the code keeps no state across calls
(no failure counter, no open timestamp).  A call whose three attempts all
fail with HTTP 500 produces 3 consecutive failures, and the identical next
call — at any later time — again invokes the POST operation 3 times
instead of 0: no call is ever rejected without invoking the operation. -/
theorem C1_counterexample :
    send_telegram_message_watch "m" "t" "c" (fun _ => .status 500) = (false, 3)
  ∧ (send_telegram_message_watch "m" "t" "c" (fun _ => .status 500)).2 ≠ 0 := by
  constructor
  · decide
  · decide

/-- C1 amended: the Resilient Call Executor of the spec does not exist in
the code.  `send_telegram_message` keeps no per-call-class circuit state,
so every call whose message/token/chat-id guard passes invokes the
underlying POST operation at least once — regardless of any number of
previous consecutive failures — and at most 3 times (the in-call retry
loop). -/
theorem C1_no_circuit_breaker (msg token chatId : String)
    (oracle : Nat → TgOutcome)
    (h1 : msg ≠ "") (h2 : token ≠ "") (h3 : chatId ≠ "") :
    1 ≤ (send_telegram_message_watch msg token chatId oracle).2
  ∧ (send_telegram_message_watch msg token chatId oracle).2 ≤ 3 := by
  have h := sendAttempts_count oracle 3 0 rfl
  simpa [send_telegram_message_watch, h1, h2, h3] using h

/-- Witness for `C1_no_circuit_breaker` at a concrete call that follows
three failures. -/
theorem C1_no_circuit_breaker_witness :
    (("m" : String) ≠ "" ∧ ("t" : String) ≠ "" ∧ ("c" : String) ≠ "")
  ∧ 1 ≤ (send_telegram_message_watch "m" "t" "c" (fun _ => .connError)).2
  ∧ (send_telegram_message_watch "m" "t" "c" (fun _ => .connError)).2 ≤ 3 :=
  ⟨⟨by decide, by decide, by decide⟩,
    C1_no_circuit_breaker "m" "t" "c" (fun _ => .connError)
      (by decide) (by decide) (by decide)⟩

/-! ## C5 — retry classification -/

/-- C5 counterexample.  The claim says every 5xx response is retried up to
the configured maximum attempt count (3).  HTTP 501 is a 5xx status, yet
the loop retries only 429/500/502/503/504: a 501 response aborts after a
single attempt. -/
theorem C5_counterexample :
    send_telegram_message_watch "m" "t" "c" (fun _ => .status 501) = (false, 1)
  ∧ 500 ≤ 501 ∧ 501 < 600
  ∧ (send_telegram_message_watch "m" "t" "c" (fun _ => .status 501)).2 < 3 := by
  refine ⟨by decide, by decide, by decide, by decide⟩

/-- C5 amended: connection/TLS errors and timeouts are retried, and of the
HTTP responses exactly 429, 500, 502, 503 and 504 are retried, all up to 3
attempts; any other non-200 status (including other 5xx codes such as 501)
and any other exception abort the loop immediately; exhausting all
attempts returns `False` to the caller instead of raising. -/
theorem C5_retry_classification (msg token chatId : String)
    (oracle : Nat → TgOutcome)
    (h1 : msg ≠ "") (h2 : token ≠ "") (h3 : chatId ≠ "") :
    (∀ c, oracle 0 = .status c → c ≠ 200 → retryableCode c = false →
        send_telegram_message_watch msg token chatId oracle = (false, 1))
  ∧ ((∀ i, i < 3 → retryableOutcome (oracle i) = true) →
        send_telegram_message_watch msg token chatId oracle = (false, 3))
  ∧ (∀ i, i < 3 → (∀ j, j < i → retryableOutcome (oracle j) = true) →
        oracle i = .status 200 →
        send_telegram_message_watch msg token chatId oracle = (true, i + 1))
  ∧ (oracle 0 = .otherExc →
        send_telegram_message_watch msg token chatId oracle = (false, 1)) := by
  have hguard : send_telegram_message_watch msg token chatId oracle
      = sendAttempts oracle 3 0 3 := by
    simp [send_telegram_message_watch, h1, h2, h3]
  refine ⟨?_, ?_, ?_, ?_⟩
  · intro c h0 hne hret
    have hbe : (c == 200) = false := by simp only [beq_eq_false_iff_ne]; exact hne
    rw [hguard]
    simp [sendAttempts, h0, hbe, hret]
  · intro hall
    rw [hguard, show (3 : Nat) = 2 + 1 from rfl,
      sendAttempts_retry_step oracle 0 2 (hall 0 (by omega)) (by omega),
      show (2 : Nat) = 1 + 1 from rfl,
      sendAttempts_retry_step oracle 1 1 (hall 1 (by omega)) (by omega),
      show (1 : Nat) = 0 + 1 from rfl,
      sendAttempts_retry_last oracle 0 (hall 2 (by omega))]
  · intro i hi hprev h200
    rw [hguard]
    interval_cases i
    · rw [show (3 : Nat) = 2 + 1 from rfl, sendAttempts_success oracle 0 2 h200]
    · rw [show (3 : Nat) = 2 + 1 from rfl,
        sendAttempts_retry_step oracle 0 2 (hprev 0 (by omega)) (by omega),
        show (2 : Nat) = 1 + 1 from rfl, sendAttempts_success oracle 1 1 h200]
    · rw [show (3 : Nat) = 2 + 1 from rfl,
        sendAttempts_retry_step oracle 0 2 (hprev 0 (by omega)) (by omega),
        show (2 : Nat) = 1 + 1 from rfl,
        sendAttempts_retry_step oracle 1 1 (hprev 1 (by omega)) (by omega),
        show (1 : Nat) = 0 + 1 from rfl, sendAttempts_success oracle 2 0 h200]
  · intro h
    rw [hguard]
    simp [sendAttempts, h]

/-- Witness for `C5_retry_classification`: a connection error followed by
a 200 yields success on the second attempt. -/
theorem C5_retry_classification_witness :
    (∀ j, j < 1 → retryableOutcome
      ((fun n => if n == 0 then TgOutcome.connError else .status 200) j) = true)
  ∧ send_telegram_message_watch "m" "t" "c"
      (fun n => if n == 0 then TgOutcome.connError else .status 200) = (true, 2) := by
  refine ⟨?_, ?_⟩
  · intro j hj
    have hj0 : j = 0 := by omega
    subst hj0; decide
  · exact (C5_retry_classification "m" "t" "c" _
      (by decide) (by decide) (by decide)).2.2.1 1 (by omega)
      (fun j hj => by
        have hj0 : j = 0 := by omega
        subst hj0; decide)
      (by decide)

/-! ## C7 — message truncation -/

/-- C7 confirmed: a message longer than 4000 characters is transmitted as
its first 4000 characters followed by the trailing `"\n\n... (truncated)"`
marker; a message of at most 4000 characters is transmitted unchanged; the
webhook sender issues at most one POST payload per call (never a split
into several messages). -/
theorem C7_truncation (m : String) :
    (m.length > 4000 →
        telegram_payload_text m = m.take 4000 ++ "\n\n... (truncated)")
  ∧ (m.length ≤ 4000 → telegram_payload_text m = m)
  ∧ (∀ token chatId : String, m ≠ "" → token ≠ "" → chatId ≠ "" →
      send_payloads_webhook m token chatId = [telegram_payload_text m]
        ∧ (send_payloads_webhook m token chatId).length ≤ 1) := by
  refine ⟨?_, ?_, ?_⟩
  · intro h
    simp [telegram_payload_text, h]
  · intro h
    rw [telegram_payload_text, if_neg (by omega)]
  · intro token chatId h1 h2 h3
    simp [send_payloads_webhook, h1, h2, h3]

/-- The 4500-character message of the spec's testable property. -/
def msg4500 : String := String.mk (List.replicate 4500 'a')

/-- Witness for `C7_truncation` at a 4500-character message. -/
theorem C7_truncation_witness :
    msg4500.length > 4000
  ∧ telegram_payload_text msg4500 = msg4500.take 4000 ++ "\n\n... (truncated)" := by
  have h : msg4500.length = 4500 := by
    rw [show msg4500.length = (List.replicate 4500 'a').length from rfl,
      List.length_replicate]
  exact ⟨by omega, (C7_truncation msg4500).1 (by omega)⟩

/-! ## C9 — notification threshold -/

theorem gmail_notify_go_stop (l : List String) : gmail_notify_sends.go l 1 = [] := by
  cases l <;> simp [gmail_notify_sends.go]

theorem gmail_notify_go_first (pre : List String) (b : String) (post : List String)
    (hpre : ∀ x ∈ pre, x.length ≤ 100) (hb : b.length > 100) :
    gmail_notify_sends.go (pre ++ b :: post) 0 = [build_formatted_message b] := by
  induction pre with
  | nil =>
    have hbne : b ≠ "" := by
      intro e
      subst e
      exact absurd hb (by decide)
    simp [gmail_notify_sends.go, hbne, hb, gmail_notify_go_stop]
  | cons x pre ih =>
    have hx : ¬(x.length > 100) := by
      have := hpre x (by simp)
      omega
    simp only [List.cons_append, gmail_notify_sends.go]
    rw [if_neg (by omega), if_neg (by simp [hx])]
    exact ih (fun y hy => hpre y (by simp [hy]))

/-- C9 confirmed: the `/gmail-notify` loop sends at most one formatted
alert per inbound notification; it sends nothing when every extracted body
has at most 100 characters (in particular, non-empty bodies of at most 100
characters are dropped without formatting or sending); and when the first
body longer than 100 characters is `b`, exactly the alert formatted from
`b` is sent. -/
theorem C9_notify_threshold (bodies : List String) :
    (gmail_notify_sends bodies).length ≤ 1
  ∧ ((∀ b ∈ bodies, b.length ≤ 100) → gmail_notify_sends bodies = [])
  ∧ (∀ pre b post, bodies = pre ++ b :: post → (∀ x ∈ pre, x.length ≤ 100) →
      b.length > 100 → gmail_notify_sends bodies = [build_formatted_message b]) := by
  refine ⟨?_, ?_, ?_⟩
  · show (gmail_notify_sends.go bodies 0).length ≤ 1
    induction bodies with
    | nil => simp [gmail_notify_sends.go]
    | cons b rest ih =>
      simp only [gmail_notify_sends.go]
      rw [if_neg (by omega)]
      split
      · simp [gmail_notify_go_stop]
      · exact ih
  · intro hall
    show gmail_notify_sends.go bodies 0 = []
    induction bodies with
    | nil => simp [gmail_notify_sends.go]
    | cons b rest ih =>
      have hb : ¬(b.length > 100) := by
        have := hall b (by simp)
        omega
      simp only [gmail_notify_sends.go]
      rw [if_neg (by omega), if_neg (by simp [hb])]
      exact ih (fun y hy => hall y (by simp [hy]))
  · intro pre b post hsplit hpre hb
    subst hsplit
    exact gmail_notify_go_first pre b post hpre hb

/-- The 101-character body used by the C9 witness. -/
def body101 : String := String.mk (List.replicate 101 'a')

/-- Witness for `C9_notify_threshold`: a 5-character body is skipped and
the following 101-character body is the one processed. -/
theorem C9_notify_threshold_witness :
    (["short", body101] : List String) = ["short"] ++ body101 :: []
  ∧ (∀ x ∈ (["short"] : List String), x.length ≤ 100)
  ∧ body101.length > 100
  ∧ gmail_notify_sends ["short", body101] = [build_formatted_message body101] := by
  have hlen : body101.length = 101 := by
    rw [show body101.length = (List.replicate 101 'a').length from rfl,
      List.length_replicate]
  refine ⟨rfl, by decide, by omega, ?_⟩
  exact (C9_notify_threshold ["short", body101]).2.2 ["short"] body101 []
    rfl (by decide) (by omega)

/-! ## C2 — text extraction order -/

theorem extractParts_first_hit : ∀ (l : List MessagePart),
    (∀ t ∈ hitsList l, renderHit t ≠ "") →
    extractParts l = ((hitsList l).head?.map renderHit).getD "" := by
  intro l
  induction l using extractParts.induct with
  | case1 =>
    intro hh
    simp [extractParts, hitsList]
  | case2 mt d hasParts parts rest h1 a ha hne =>
    intro hh
    simp [extractParts, hitsList, renderHit, h1, ha, hne]
  | case3 mt d hasParts parts rest h1 a ha hne ih =>
    intro hh
    have ha0 : a = "" := by simpa using hne
    subst ha0
    simp [extractParts, hitsList, h1, ha] at hh ⊢
    exact ih hh
  | case4 mt d hasParts parts rest h1 ha ih =>
    intro hh
    simp [extractParts, hitsList, h1, ha] at hh ⊢
    exact ih hh
  | case5 mt d hasParts parts rest h1 h2 a ha hne =>
    intro hh
    simp [extractParts, hitsList, renderHit, h1, h2, ha, hne]
  | case6 mt d hasParts parts rest h1 h2 a ha hne ih =>
    intro hh
    have ha0 : a = "" := by simpa using hne
    subst ha0
    simp [extractParts, hitsList, h1, h2, ha] at hh ⊢
    exact ih hh
  | case7 mt d hasParts parts rest h1 h2 ha ih =>
    intro hh
    simp [extractParts, hitsList, h1, h2, ha] at hh ⊢
    exact ih hh
  | case8 mt d parts rest h1 h2 b hbne ihp =>
    intro hh
    have hbne2 : (extractParts parts != "") = true := hbne
    have hph : ∀ t ∈ hitsList parts, renderHit t ≠ "" := by
      intro t ht
      refine hh t ?_
      simp only [hitsList, h1, h2]
      simp [ht]
    have hp := ihp hph
    rcases hhp : hitsList parts with _ | ⟨t, ts⟩
    · rw [hhp] at hp
      simp only [List.head?_nil, Option.map_none, Option.getD_none] at hp
      rw [hp] at hbne2
      exact absurd hbne2 (by decide)
    · rw [hhp] at hp
      simp only [List.head?_cons, Option.map_some, Option.getD_some] at hp
      simp [extractParts, hitsList, h1, h2, hhp, hp,
        show (renderHit t != "") = true from by
          simpa using hph t (by rw [hhp]; exact List.mem_cons_self t ts)]
  | case9 mt d parts rest h1 h2 b hbe ihp ihr =>
    intro hh
    have hb0 : extractParts parts = "" := by
      have hbe2 : ¬(extractParts parts != "") = true := hbe
      simpa using hbe2
    have hpnil : hitsList parts = [] := by
      rcases hhp : hitsList parts with _ | ⟨t, ts⟩
      · rfl
      · exfalso
        have hph : ∀ u ∈ hitsList parts, renderHit u ≠ "" := by
          intro u hu
          refine hh u ?_
          simp only [hitsList, h1, h2]
          simp [hu]
        have hp := ihp hph
        rw [hhp] at hp
        simp only [List.head?_cons, Option.map_some, Option.getD_some] at hp
        have htne : renderHit t ≠ "" :=
          hph t (by rw [hhp]; exact List.mem_cons_self t ts)
        rw [hb0] at hp
        exact htne hp.symm
    simp [extractParts, hitsList, h1, h2, hb0, hpnil] at hh ⊢
    exact ihr hh
  | case10 mt d hasParts parts rest h1 h2 h3 ih =>
    intro hh
    have h3f : hasParts = false := by simpa using h3
    subst h3f
    simp [extractParts, hitsList, h1, h2] at hh ⊢
    exact ih hh

/-- The counterexample tree for C2: an HTML leaf before a plain-text leaf
inside the same `parts` list. -/
def exHtmlLeaf : MessagePart := .mk "text/html" (some "WA==") false []

/-- Plain-text leaf whose decoded body is `"Y"`. -/
def exPlainLeaf : MessagePart := .mk "text/plain" (some "WQ==") false []

/-- `multipart/mixed` node containing `[exHtmlLeaf, exPlainLeaf]`. -/
def exTree : MessagePart := .mk "multipart/mixed" none true [exHtmlLeaf, exPlainLeaf]

/-- C2 counterexample.  `exTree` contains a plain-text leaf whose decoded
body is the non-empty string `"Y"` (the base64 of `"Y"` is `"WQ=="`), so
the claim requires `extract` to return `"Y"`.  The code instead stops at
the HTML leaf that precedes it in traversal order and returns its stripped
body `"X"`: an HTML body is returned even though a plain-text leaf with a
non-empty decoded body exists in the tree. -/
theorem C2_counterexample :
    exTree = MessagePart.mk "multipart/mixed" none true
      [MessagePart.mk "text/html" (some "WA==") false [],
        MessagePart.mk "text/plain" (some "WQ==") false []]
  ∧ safe_decode_base64 "WQ==" = some "Y"
  ∧ extract_text_from_payload exTree = "X"
  ∧ ("X" : String) ≠ "Y" := by
  have h1 : safe_decode_base64 "WA==" = some "X" := by decide
  have h2 : safe_decode_base64 "WQ==" = some "Y" := by decide
  refine ⟨rfl, h2, ?_, by decide⟩
  simp [exTree, exHtmlLeaf, exPlainLeaf, extract_text_from_payload, extractParts,
    dataTruthy, h1, soupGetText, soupGetText.go]

/-- C2 amended: `extract` returns the first text-bearing leaf in
depth-first traversal order — the decoded body of a plain-text leaf
unmodified, the markup-stripped decoded body of an HTML leaf — whichever
kind comes first; an HTML leaf is *not* passed over in favour of a later
plain-text leaf.  Formally, whenever every hit renders to non-empty text,
`extract` equals the rendering of the head of the depth-first hit list
(and the empty string when there is no hit). -/
theorem C2_first_hit_wins (p : MessagePart)
    (hh : ∀ t ∈ hitsOf p, renderHit t ≠ "") :
    extract_text_from_payload p = ((hitsOf p).head?.map renderHit).getD "" := by
  rcases p with ⟨mt, d, hasParts, parts⟩
  cases hasParts with
  | true =>
    simp only [extract_text_from_payload, hitsOf] at hh ⊢
    exact extractParts_first_hit parts hh
  | false =>
    simp only [extract_text_from_payload, hitsOf, leafExtract] at hh ⊢
    by_cases h1 : (mt == "text/plain" && dataTruthy d) = true
    · rcases ha : safe_decode_base64 (d.getD "") with _ | s
      · simp [h1, ha]
      · by_cases hs : s = ""
        · subst hs
          simp [h1, ha]
        · simp [renderHit, h1, ha, hs]
    · by_cases h2 : (mt == "text/html" && dataTruthy d) = true
      · rcases ha : safe_decode_base64 (d.getD "") with _ | s
        · simp [h1, h2, ha]
        · by_cases hs : s = ""
          · subst hs
            simp [h1, h2, ha]
          · simp [renderHit, h1, h2, ha, hs]
      · simp [h1, h2]

/-- Witness for `C2_first_hit_wins` at `exTree`. -/
theorem C2_first_hit_wins_witness :
    (∀ t ∈ hitsOf exTree, renderHit t ≠ "")
  ∧ extract_text_from_payload exTree
      = ((hitsOf exTree).head?.map renderHit).getD "" := by
  have hhit : hitsOf exTree = [TextHit.html "X", TextHit.plain "Y"] := by
    have h1 : safe_decode_base64 "WA==" = some "X" := by decide
    have h2 : safe_decode_base64 "WQ==" = some "Y" := by decide
    simp [exTree, exHtmlLeaf, exPlainLeaf, hitsOf, hitsList, dataTruthy, h1, h2]
  have hne : ∀ t ∈ hitsOf exTree, renderHit t ≠ "" := by
    rw [hhit]
    decide
  exact ⟨hne, C2_first_hit_wins exTree hne⟩

/-! ## C3 — parse of the empty string -/

/-- C3 counterexample.  The claim says `parse("")` yields the all-default
record and "never an error result".  The code returns the fixed error
string for an empty body — not the default-valued rendering. -/
theorem C3_counterexample :
    build_formatted_message "" = "❌ **Error: Empty email body**"
  ∧ build_formatted_message ""
      ≠ renderLoadMessage "Unknown Pickup" "ASAP" "Unknown Delivery" "N/A" "N/A"
          "N/A" "N/A" "N/A" "N/A" "N/A" "N/A" "N/A" "N/A" "N/A" "N/A" := by
  constructor
  · rfl
  · decide

/-- C3 amended: `parse("")` returns the fixed `"Empty email body"` error
string (the empty-body guard fires before any extraction), while any
non-empty text in which no pattern matches — here `"x"` — yields the
rendering with every field at its documented default (`Unknown
Pickup`/`ASAP`, `Unknown Delivery`/`N/A`, distance `N/A`, all remaining
fields `N/A`); the embedded `parse` is a total function, so it never
raises. -/
theorem C3_empty_body_is_error :
    build_formatted_message "" = "❌ **Error: Empty email body**"
  ∧ build_formatted_message "x"
      = renderLoadMessage "Unknown Pickup" "ASAP" "Unknown Delivery" "N/A" "N/A"
          "N/A" "N/A" "N/A" "N/A" "N/A" "N/A" "N/A" "N/A" "N/A" "N/A" := by
  exact ⟨rfl, by decide⟩

/-! ## C4 — the two-line pickup/delivery heuristic -/

/-- C4 counterexample.  In `"Pick-Up\nAAA\nBBB\nCCC"` the line `"BBB"`
matches no date/time/keyword shape, so the claim — which asserts the
heuristic for *both* pickup and delivery — requires the pickup address
`"AAA BBB"` with time-window `"CCC"`.  The pickup extractor has no such
heuristic: it returns `("AAA", "BBB")` unconditionally. -/
theorem C4_counterexample :
    extract_pickup_info "Pick-Up\nAAA\nBBB\nCCC" = (some "AAA", some "BBB")
  ∧ (research date_shape_pattern "BBB".toList).isSome = false
  ∧ ((some "AAA" : Option String), (some "BBB" : Option String))
      ≠ ((some "AAA BBB" : Option String), (some "CCC" : Option String)) := by
  refine ⟨by decide, by decide, by decide⟩

/-- C4 amended: only the delivery extractor applies the date-shape
heuristic (a second line matching a numeric date, `HH:MM`, `ASAP` or
`Direct` is the time-window; otherwise it is appended to the address and
the third line is the time-window, when present); the pickup extractor
unconditionally takes the first line after the marker as the address and
the second as the time-window.  In particular the spec's example text
still extracts pickup address `"Laredo, TX 78040"`. -/
theorem C4_delivery_only_heuristic :
    extract_pickup_info "Pick-Up\nLaredo, TX 78040\nDeliver Direct"
      = (some "Laredo, TX 78040", some "Deliver Direct")
  ∧ extract_delivery_info "Delivery\nDallas, TX\nSuite 5\n08/14/25"
      = (some "Dallas, TX Suite 5", some "08/14/25")
  ∧ extract_delivery_info "Delivery\nDallas, TX\nASAP"
      = (some "Dallas, TX", some "ASAP")
  ∧ extract_pickup_info "Pick-Up\nAAA\nBBB\nCCC" = (some "AAA", some "BBB") := by
  refine ⟨by decide, by decide, by decide, by decide⟩

/-! ## C6 — geo-radius dispatch (spec-modelled) -/

/-- C6 confirmed against the spec-modelled dispatcher: a recipient is kept
iff its distance to the origin is at most the radius (inclusive boundary),
the output preserves registry order (it is a sublist of the input), a
recipient at distance exactly 150.0 is included at radius 150, and one at
150.1 is excluded. -/
theorem C6_matchNearby_filter :
    (∀ (dist : ℚ × ℚ → ℚ × ℚ → ℚ) (origin : ℚ × ℚ) (rs : List Recipient)
        (radius : ℚ) (r : Recipient),
        r ∈ matchNearby dist origin rs radius ↔
          r ∈ rs ∧ dist origin (r.lat, r.lon) ≤ radius)
  ∧ (∀ (dist : ℚ × ℚ → ℚ × ℚ → ℚ) (origin : ℚ × ℚ) (rs : List Recipient)
        (radius : ℚ), (matchNearby dist origin rs radius).Sublist rs)
  ∧ matchNearby (fun _ _ => 150) (0, 0) [⟨"near", "N", 0, 0⟩] 150
      = [⟨"near", "N", 0, 0⟩]
  ∧ matchNearby (fun _ _ => 1501 / 10) (0, 0) [⟨"far", "F", 0, 0⟩] 150 = [] := by
  refine ⟨?_, ?_, ?_, ?_⟩
  · intro dist origin rs radius r
    simp [matchNearby, List.mem_filter]
  · intro dist origin rs radius
    exact List.filter_sublist rs
  · simp [matchNearby]
  · simp [matchNearby]
    norm_num

/-! ## C8 — distance extraction -/

/-- The body used by the C8 counterexample: a lower-case
`"1 stops, 2 miles"` precedes the upper-case `"2 STOPS, 1,269 MILES"`. -/
def c8Body : String := "1 stops, 2 miles\n2 STOPS, 1,269 MILES"

/-- C8 counterexample.  `c8Body` contains the substring
`"2 STOPS, 1,269 MILES"`, which on its own extracts distance `"1,269"`;
the claim therefore requires the distance field `"1,269"`.  But the first,
case-insensitive search matches the earlier lower-case
`"1 stops, 2 miles"`, and the second, case-sensitive `MILES` search then
fails over it, so the code produces `"N/A"`. -/
theorem C8_counterexample :
    c8Body = "1 stops, 2 miles\n" ++ "2 STOPS, 1,269 MILES"
  ∧ estimated_miles_of "2 STOPS, 1,269 MILES" = "1,269"
  ∧ estimated_miles_of c8Body = "N/A"
  ∧ ("N/A" : String) ≠ "1,269" := by
  refine ⟨by decide, by decide, by decide, by decide⟩

/-- C8 amended: the distance is taken from the *leftmost* case-insensitive
match of `"<N> STOPS, <M> MILES"`, from which the miles number is then
re-extracted by a case-sensitive search (so a lower-case leftmost match
shadows an upper-case one and yields `"N/A"`); text in which the pattern
does not match anywhere yields `"N/A"`; the spec's example
`"2 STOPS, 1,269 MILES"` on its own yields `"1,269"` with its thousands
separator. -/
theorem C8_distance_extraction (body : String) :
    (research stops_miles_pattern body.toList = none →
        estimated_miles_of body = "N/A")
  ∧ estimated_miles_of "2 STOPS, 1,269 MILES" = "1,269"
  ∧ estimated_miles_of c8Body = "N/A" := by
  refine ⟨?_, by decide, by decide⟩
  intro h
  simp only [estimated_miles_of, stops_miles_of, findPat, h]
  rfl

/-- Witness for `C8_distance_extraction` at a body with no
stops/miles-shaped substring. -/
theorem C8_distance_extraction_witness :
    research stops_miles_pattern "no shape here".toList = none
  ∧ estimated_miles_of "no shape here" = "N/A" :=
  ⟨by decide, (C8_distance_extraction "no shape here").1 (by decide)⟩

/-! ## C10 — `safe_decode_base64` -/

/-- C10 confirmed: `safe_decode_base64` is a total function; it right-pads
its input with `'='` to a multiple of four characters before decoding;
it returns `none` exactly when the input is empty or the (padded) base64
decode itself fails; and when the base64 decode succeeds the UTF-8 stage
always succeeds — invalid UTF-8 bytes are silently dropped, never turned
into a failure (`"Qf9C"` decodes to bytes `[65, 255, 66]` whose invalid
`255` is dropped, giving `"AB"`). -/
theorem C10_safe_decode_total (data : String) :
    ((b64Pad data).length % 4 = 0
      ∧ ∃ p : String, b64Pad data = data ++ p
          ∧ p.toList.all (fun c => c == '=') = true)
  ∧ (safe_decode_base64 data = none ↔
      (data = "" ∨ b64RawDecode (b64Pad data) = none))
  ∧ (∀ bytes, b64RawDecode (b64Pad data) = some bytes → data ≠ "" →
      safe_decode_base64 data = some (String.mk (utf8DecodeIgnore bytes)))
  ∧ safe_decode_base64 "Qf9C" = some "AB" := by
  refine ⟨⟨?_, ?_⟩, ?_, ?_, by decide⟩
  · unfold b64Pad
    split
    · rename_i hmod
      have hmod2 : data.length % 4 ≠ 0 := by simpa using hmod
      rw [String.length_append,
        show (String.mk (List.replicate (4 - data.length % 4) '=')).length
          = (List.replicate (4 - data.length % 4) '=').length from rfl,
        List.length_replicate]
      omega
    · rename_i hmod
      simpa using hmod
  · unfold b64Pad
    split
    · exact ⟨String.mk (List.replicate (4 - data.length % 4) '='), rfl, by
        simp [List.all_eq_true]⟩
    · refine ⟨"", ?_, by decide⟩
      rw [String.append_empty]
  · by_cases hd : data = ""
    · subst hd
      simp [safe_decode_base64]
    · rcases h : b64RawDecode (b64Pad data) with _ | bytes
      · simp [safe_decode_base64, hd, h]
      · simp [safe_decode_base64, hd, h]
  · intro bytes hb hd
    simp [safe_decode_base64, hd, hb]

/-- Witness for `C10_safe_decode_total` at `"Qf9C"`. -/
theorem C10_safe_decode_total_witness :
    b64RawDecode (b64Pad "Qf9C") = some [65, 255, 66]
  ∧ ("Qf9C" : String) ≠ ""
  ∧ safe_decode_base64 "Qf9C" = some (String.mk (utf8DecodeIgnore [65, 255, 66]))
  ∧ String.mk (utf8DecodeIgnore [65, 255, 66]) = "AB" :=
  ⟨by decide, by decide,
    (C10_safe_decode_total "Qf9C").2.2.1 [65, 255, 66] (by decide) (by decide),
    by decide⟩

end GmailHook
